import Mathlib

/-!
Verification of the `latex2anki` repository's packaging descriptor
(`setup.py`) against its natural-language specification.

The whole provided source is a single `setup()` invocation from
setuptools.  We embed it shallowly: a Python keyword argument value is
either a string or a list of strings, and the `setup()` call is the
ordered list of its keyword arguments.  The raw text of the file is
also embedded, line by line, for the claims about the file's shape.
-/

namespace Latex2Anki

/-- A Python value as it appears in the `setup()` call of `setup.py`:
every argument there is either a string literal or a list of string
literals. -/
inductive PyValue where
  | str : String → PyValue
  | strList : List String → PyValue
deriving DecidableEq, Repr

/-- The keyword arguments of the single `setup()` call in `setup.py`,
in source order (lines 5-12). -/
def setupKwargs : List (String × PyValue) :=
  [ ("name", PyValue.str "latex2anki"),
    ("version", PyValue.str "0.0.1"),
    ("description", PyValue.str "convert LaTeX flash cards to Anki"),
    ("author", PyValue.str "Juan M. Bello-Rivas"),
    ("author_email", PyValue.str "jmbr@superadditive.com"),
    ("url", PyValue.str "https://github.com/jmbr/latex2anki"),
    ("install_requires", PyValue.strList ["texsoup"]),
    ("scripts", PyValue.strList ["latex2anki"]) ]

/-- The keys of the keyword arguments passed to `setup()`. -/
def setupKeys : List String := setupKwargs.map Prod.fst

/-- Look up a string-valued keyword argument of the `setup()` call. -/
def getStr (key : String) : Option String :=
  match setupKwargs.lookup key with
  | some (PyValue.str s) => some s
  | _ => none

/-- Look up a list-valued keyword argument of the `setup()` call. -/
def getStrList (key : String) : Option (List String) :=
  match setupKwargs.lookup key with
  | some (PyValue.strList l) => some l
  | _ => none

/-- The raw text of `src/setup.py`, one entry per line (the file has
no trailing newline after the last line). -/
def setupPyLines : List String :=
  [ "#!/usr/bin/env python",
    "",
    "from setuptools import setup",
    "",
    "setup(name=\x27latex2anki\x27,",
    "      version=\x270.0.1\x27,",
    "      description=\x27convert LaTeX flash cards to Anki\x27,",
    "      author=\x27Juan M. Bello-Rivas\x27,",
    "      author_email=\x27jmbr@superadditive.com\x27,",
    "      url=\x27https://github.com/jmbr/latex2anki\x27,",
    "      install_requires=[\x27texsoup\x27],",
    "      scripts=[\x27latex2anki\x27])" ]

/-- `strContains hay needle` is true when `needle` occurs as a
contiguous substring of `hay`. -/
def strContains (hay needle : String) : Bool :=
  decide (needle.toList <:+: hay.toList)

/-- The setuptools keyword arguments that declare dependencies of a
distribution.  Only `install_requires` appears in `setup.py`. -/
def dependencyKeys : List String :=
  ["install_requires", "setup_requires", "tests_require", "extras_require",
   "python_requires"]

/-- The kinds of metadata fields the spec enumerates for the `setup()`
call: package name, version, author information, the single dependency
declaration, the single script entry point, and the descriptive fields
(description, url). -/
def specEnumeratedKeys : List String :=
  ["name", "version", "author", "author_email", "install_requires",
   "scripts", "description", "url"]

/-- Substring markers of algorithmic or I/O code in Python source: a
line of pure packaging metadata contains none of them. -/
def algorithmicMarkers : List String :=
  ["def ", "class ", "lambda", "open(", "read", "write", "print",
   "stdin", "stdout", "input("]

/-- Substring markers of command-line flags, environment variables,
exit codes and file-format details.  The spec asserts none of these
interface elements appear in the source. -/
def interfaceMarkers : List String :=
  ["--", "argv", "environ", "getenv", "exit", "errno",
   ".tex", ".txt", ".csv", ".apkg", ".json", ".xml"]

/-- Every string occurring in a `setup()` keyword argument value. -/
def valueStrings (v : PyValue) : List String :=
  match v with
  | PyValue.str s => [s]
  | PyValue.strList l => l

/-- Modelled from the spec: the conversion script `latex2anki` itself is
absent from the provided source; the spec's data model gives a flash
card as an ordered pair of front text and back text. -/
structure FlashCard where
  front : String
  back : String
deriving DecidableEq, Repr

/-- Modelled from the spec: the converter is absent from the provided
source.  Per the spec it reads a LaTeX document, extracts
question/answer pairs, and emits output in a flashcard-import format;
we model it as the composition of an extraction pass and an emission
pass, each left abstract because the spec specifies neither. -/
def converter (extract : String → List FlashCard)
    (emit : List FlashCard → String) (input : String) : String :=
  emit (extract input)

end Latex2Anki

namespace Latex2Anki

/-- C1: the `scripts` list passed to `setup` contains precisely the
single element "latex2anki". -/
theorem scripts_is_single_latex2anki :
    getStrList "scripts" = some ["latex2anki"] := by
  decide

/-- C2: the `install_requires` list passed to `setup` has length one,
and among all dependency-declaring setuptools keywords, only
`install_requires` is present in the call. -/
theorem install_requires_sole_dependency :
    (Option.map List.length (getStrList "install_requires") = some 1) ∧
      setupKeys.filter (fun k => dependencyKeys.contains k) =
        ["install_requires"] := by
  decide

/-- C3: the provided source is a 12-line file with exactly one line
opening a `setup(` invocation, and no line contains a function or
class definition, input reading, or output writing. -/
theorem setup_py_is_pure_metadata :
    setupPyLines.length = 12 ∧
      (setupPyLines.filter (fun l => strContains l "setup(")).length = 1 ∧
      setupPyLines.all
        (fun l => algorithmicMarkers.all (fun m => !(strContains l m)))
        = true := by
  decide

/-- C4: every keyword argument passed to `setup()` falls into the
spec's enumeration of metadata fields (name, version, author
information, one dependency declaration, one script entry point, and
the descriptive fields description and url). -/
theorem setup_keys_match_spec_enumeration :
    setupKeys.all (fun k => specEnumeratedKeys.contains k) = true := by
  decide

/-- C5: no keyword argument value of the `setup()` call mentions a
command-line flag, an environment variable, an exit code, or a
file-format detail. -/
theorem setup_values_free_of_interface_elements :
    setupKwargs.all
      (fun kv => (valueStrings kv.2).all
        (fun s => interfaceMarkers.all (fun m => !(strContains s m))))
      = true := by
  decide

/-- C6: for every LaTeX input file, the converter (modelled from the
spec as extraction followed by emission) produces exactly one
flashcard-import output file. -/
theorem converter_one_input_one_output
    (extract : String → List FlashCard) (emit : List FlashCard → String)
    (input : String) :
    ∃! output, converter extract emit input = output :=
  ⟨converter extract emit input, rfl, fun _ h => h.symm⟩

/-- C6 witness: the converter applied to a concrete extraction pass,
emission pass and input has exactly one output. -/
theorem converter_one_input_one_output_witness :
    ∃! output,
      converter (fun _ => []) (fun _ => "") "\\begin\x7bdocument\x7d" =
        output :=
  converter_one_input_one_output (fun _ => []) (fun _ => "")
    "\\begin\x7bdocument\x7d"

/-- C7: the sole element of `install_requires` is the string
"texsoup". -/
theorem install_requires_is_texsoup :
    getStrList "install_requires" = some ["texsoup"] := by
  decide

/-- C8: the `name` argument of `setup()` and the sole element of the
`scripts` list are both the string "latex2anki". -/
theorem name_equals_script_name :
    getStr "name" = some "latex2anki" ∧
      getStrList "scripts" = some ["latex2anki"] := by
  decide

/-- C9: the `setup()` call declares neither a `packages` nor a
`py_modules` keyword argument. -/
theorem no_packages_no_py_modules :
    setupKeys.contains "packages" = false ∧
      setupKeys.contains "py_modules" = false := by
  decide

end Latex2Anki
